/-
  Verification development for the d3.js-4-01-static-charts repository.

  The repository contains three chart scripts (an air-route map overlay, a
  rate chart with recession bands, and a grouped bar chart) plus a small
  shared utility module.  The layout and geometry computations of those
  scripts are embedded below as pure Lean functions over the rationals
  (JavaScript numbers are idealised as Q; the formulae involved are exact),
  and the properties of interest are proved about these embeddings.
-/
import Mathlib

/-! ## A fragment of JavaScript value semantics

The rate-chart script iterates an array with a for-in loop, whose loop
variable is a property key, i.e. a STRING, and then compares that string
against a number with the strict-equality operator.  JavaScript strict
equality between values of different primitive types is always false, so we
model just enough of the value universe to express that comparison
faithfully. -/

/-- A JavaScript primitive value: a string or a number.  Only these two
shapes occur in the comparison we need to model. -/
inductive JsValue where
  | str (s : String)
  | num (q : ℚ)
deriving DecidableEq

/-- JavaScript strict equality between primitive values: values of
different types are never strictly equal; same-typed values compare by
value. -/
def jsStrictEq : JsValue → JsValue → Bool
  | JsValue.str a, JsValue.str b => a == b
  | JsValue.num a, JsValue.num b => a == b
  | _, _ => false

/-! ## Rate-chart data model (us-map-overlay.js, rate-chart part)

One parsed CSV row: a date, a rate, and a recession flag.  Dates are
idealised as rationals (epoch-style timestamps); the interval collapser
never computes on a date, it only copies it. -/

/-- One rate sample: date, rate, and recession flag, as produced by the
rate chart's getData row mapper. -/
structure RateDatum where
  date : ℚ
  rate : ℚ
  isRecession : Bool
deriving DecidableEq

/-- A collapsed recession period, with a start and an end date. -/
structure RecessionPeriod where
  startDate : ℚ
  endDate : ℚ
deriving DecidableEq

/-- One iteration of the for-in loop body of collapseRecessionPeriods.
State is (periods so far, the open startDate or none).  The loop index
arrives as a string property key, and the source compares it against the
number data.length - 1 with strict equality (jsStrictEq), exactly as the
JavaScript does. -/
def collapseStep (n : ℕ) (st : List RecessionPeriod × Option ℚ)
    (p : ℕ × RateDatum) : List RecessionPeriod × Option ℚ :=
  let periods := st.1
  let startDate := st.2
  let i := p.1
  let datum := p.2
  if startDate.isNone && datum.isRecession then
    (periods, some datum.date)
  else if startDate.isSome &&
      (!datum.isRecession ||
        jsStrictEq (JsValue.str (toString i)) (JsValue.num ((n : ℚ) - 1))) then
    (periods ++ [{ startDate := startDate.getD 0, endDate := datum.date }], none)
  else
    (periods, startDate)

/-- Embedding of collapseRecessionPeriods: a left-to-right scan over the
data rows, indexed 0, 1, ... as the for-in loop indexes them, returning the
accumulated list of periods. -/
def collapseRecessionPeriods (data : List RateDatum) : List RecessionPeriod :=
  (((List.range data.length).zip data).foldl
    (fun st p => collapseStep data.length st p) ([], none)).1

example :
    collapseRecessionPeriods
      [⟨1, 0, false⟩, ⟨2, 0, true⟩, ⟨3, 0, true⟩, ⟨4, 0, false⟩, ⟨5, 0, true⟩]
      = [{ startDate := 2, endDate := 4 }] := by
  decide

/-! ## Plot areas

Each chart script builds a plot record of svg size, padding, and the pixel
range left inside the padding.  The three records differ only in their
constants. -/

/-- Svg pixel size of a chart. -/
structure SvgSize where
  width : ℚ
  height : ℚ
deriving DecidableEq

/-- Main chart area padding. -/
structure ChartPadding where
  top : ℚ
  right : ℚ
  bottom : ℚ
  left : ℚ
deriving DecidableEq

/-- Drawn axis length in pixels, per axis. -/
structure PixelRange where
  x : ℚ
  y : ℚ
deriving DecidableEq

/-- The plot record each chart computes: svg size, padding, ranges. -/
structure PlotArea where
  svg : SvgSize
  padding : ChartPadding
  range : PixelRange
deriving DecidableEq

/-- getPlotArea of the us-map-overlay chart. -/
def getPlotAreaMap : PlotArea :=
  let svg : SvgSize := { width := 800, height := 500 }
  let padding : ChartPadding := { top := 60, right := 5, bottom := 5, left := 5 }
  { svg := svg, padding := padding,
    range := { x := svg.width - padding.left - padding.right,
               y := svg.height - padding.top - padding.bottom } }

/-- getPlotArea of the rate chart. -/
def getPlotAreaRate : PlotArea :=
  let svg : SvgSize := { width := 800, height := 420 }
  let padding : ChartPadding := { top := 10, right := 90, bottom := 40, left := 20 }
  { svg := svg, padding := padding,
    range := { x := svg.width - padding.left - padding.right,
               y := svg.height - padding.top - padding.bottom } }

/-- getPlotArea of the grouped bar chart. -/
def getPlotAreaBar : PlotArea :=
  let svg : SvgSize := { width := 800, height := 500 }
  let padding : ChartPadding := { top := 70, right := 30, bottom := 70, left := 70 }
  { svg := svg, padding := padding,
    range := { x := svg.width - padding.left - padding.right,
               y := svg.height - padding.top - padding.bottom } }

/-! ## Linear scales

Modelled from the spec: d3.scaleLinear belongs to the external D3 library
(not part of this repository); the spec defines the mapping as
pixel = range.min + (value - domain.min) / (domain.max - domain.min)
* (range.max - range.min). -/

/-- Modelled from the spec: the D3 linear scale with domain [d0, d1] and
range [r0, r1], which is external library code not present in src/.
Maps value v to r0 + (v - d0) / (d1 - d0) * (r1 - r0). -/
def d3ScaleLinear (d0 d1 r0 r1 v : ℚ) : ℚ :=
  r0 + (v - d0) / (d1 - d0) * (r1 - r0)

/-- The scale triple built by the map chart's makeScales: a radius scale, a
longitude-to-x scale, and a latitude-to-y scale (the y range is inverted so
north is up). -/
structure MapScales where
  r : ℚ → ℚ
  x : ℚ → ℚ
  y : ℚ → ℚ

/-- makeScales of the us-map-overlay chart, with the hardcoded longitude
and latitude domains from the source. -/
def makeScalesMap (plot : PlotArea) : MapScales :=
  { r := fun v => d3ScaleLinear 100000 1000000 1 10 v,
    x := fun v => d3ScaleLinear (-124711776/1000000) (-670999376/10000000) 0 plot.range.x v,
    y := fun v => d3ScaleLinear (245646815/10000000) (493782021/10000000) plot.range.y 0 v }

/-! ## Arc geometry (appendOneRouteArc, appendRouteArcs)

An SVG elliptical-arc path is represented structurally by its command
parameters together with the css class the source attaches to it. -/

/-- One airport record from the map chart's JSON dataset. -/
structure Airport where
  code : String
  longitude : ℚ
  latitude : ℚ
  movements2015 : ℚ
deriving DecidableEq, Inhabited

/-- The parameters of one emitted route-arc path element:
move-to point, arc radii, rotation, flags, end point, and css class. -/
structure ArcPath where
  curX : ℚ
  curY : ℚ
  rx : ℚ
  ry : ℚ
  xAxisRotation : ℚ
  largeArcFlag : ℚ
  sweepFlag : ℚ
  newX : ℚ
  newY : ℚ
  cssClass : String
deriving DecidableEq

/-- Embedding of appendOneRouteArc: computes the arc parameters from the
projected departure and arrival points and classifies the path eastward or
westward by comparing projected x coordinates.  sx and sy are the scale
functions scales.x and scales.y. -/
def appendOneRouteArc (sx sy : ℚ → ℚ) (departureAirport arrivalAirport : Airport) :
    ArcPath :=
  let xAxisRotation : ℚ := 0
  let largeArcFlag : ℚ := 0
  let curX := sx departureAirport.longitude
  let curY := sy departureAirport.latitude
  let newX := sx arrivalAirport.longitude
  let newY := sy arrivalAirport.latitude
  let rx := (newX - curX) * (3 / 2)
  let ry := rx
  let sweepFlag : ℚ := 1
  { curX := curX, curY := curY, rx := rx, ry := ry,
    xAxisRotation := xAxisRotation, largeArcFlag := largeArcFlag,
    sweepFlag := sweepFlag, newX := newX, newY := newY,
    cssClass := if curX < newX then "eastward" else "westward" }

/-- Embedding of appendRouteArcs: for each airport index i and each other
index j, append the arc from data[i] to data[j]. -/
def appendRouteArcs (sx sy : ℚ → ℚ) (data : List Airport) : List ArcPath :=
  (List.range data.length).flatMap (fun i =>
    (List.range data.length).filterMap (fun j =>
      if j ≠ i then
        some (appendOneRouteArc sx sy (data.getD i default) (data.getD j default))
      else none))

/-! ## Legend layout (calcLegendArea, rate chart) -/

/-- The plate sub-record of the legend area. -/
structure LegendPlate where
  margin : ℚ
  width : ℚ
  height : ℚ
deriving DecidableEq

/-- The square sub-record of the legend area. -/
structure LegendSquare where
  margin : ℚ
  width : ℚ
  x : ℚ
deriving DecidableEq

/-- The legend area record built by calcLegendArea. -/
structure LegendArea where
  legendMargin : ℚ
  plate : LegendPlate
  square : LegendSquare
  textFontOffset : ℚ
deriving DecidableEq

/-- Embedding of calcLegendArea: sizes the backing plate to fit the widest
legend text, with the margin and square constants hardcoded in the
source. -/
def calcLegendArea (maxTextWidth : ℚ) (numRows : ℚ) : LegendArea :=
  let legendMargin : ℚ := 10
  let plateMargin : ℚ := 10
  let squareMargin : ℚ := 5
  let squareWidth : ℚ := 10
  let textFontOffset : ℚ := 9
  let plateWidth := plateMargin + maxTextWidth + 2 * squareMargin + squareWidth
  let plateHeight := (numRows + 1) * squareMargin + numRows * squareWidth
  { legendMargin := legendMargin,
    plate := { margin := plateMargin, width := plateWidth, height := plateHeight },
    square := { margin := squareMargin, width := squareWidth,
                x := plateWidth - squareWidth - squareMargin },
    textFontOffset := textFontOffset }

/-! ## Transform-string parsing (extractTranslation, rate chart)

The grid-line helper parses a transform attribute with the anchored regular
expression matching translate, an opening parenthesis, two groups separated
by the last comma, and a closing parenthesis at the end of the string.  A
dot in a JavaScript regular expression matches any character except the
four line terminators.  The matched groups are coerced to numbers with the
unary plus operator; we model that coercion (external JavaScript runtime
semantics, not repository code) including its not-a-number and infinity
outcomes. -/

/-- The four JavaScript line-terminator characters, which the dot of a
regular expression does not match. -/
def jsLineTerminator (c : Char) : Bool :=
  c = Char.ofNat 10 || c = Char.ofNat 13 || c = Char.ofNat 8232 || c = Char.ofNat 8233

/-- JavaScript whitespace accepted (and trimmed) by string-to-number
coercion: space, tab, vertical tab, form feed, no-break space, byte order
mark, the line terminators. -/
def jsWhitespace (c : Char) : Bool :=
  c = Char.ofNat 32 || c = Char.ofNat 9 || c = Char.ofNat 11 || c = Char.ofNat 12 ||
  c = Char.ofNat 160 || c = Char.ofNat 65279 || jsLineTerminator c

/-- Drop leading and trailing JavaScript whitespace. -/
def trimJsWs (l : List Char) : List Char :=
  ((l.dropWhile jsWhitespace).reverse.dropWhile jsWhitespace).reverse

/-- Numeric value of a list of decimal digit characters. -/
def decDigitsVal (l : List Char) : ℕ :=
  l.foldl (fun a c => 10 * a + (c.toNat - 48)) 0

/-- Whether a character is a hexadecimal digit. -/
def isHexDigitChar (c : Char) : Bool :=
  c.isDigit || (97 ≤ c.toNat && c.toNat ≤ 102) || (65 ≤ c.toNat && c.toNat ≤ 70)

/-- Numeric value of a hexadecimal digit character. -/
def hexDigitVal (c : Char) : ℕ :=
  if c.isDigit then c.toNat - 48
  else if c.toNat ≤ 70 then c.toNat - 55
  else c.toNat - 87

/-- Numeric value of a list of hexadecimal digit characters. -/
def hexDigitsVal (l : List Char) : ℕ :=
  l.foldl (fun a c => 16 * a + hexDigitVal c) 0

/-- Numeric value of a list of octal digit characters. -/
def octDigitsVal (l : List Char) : ℕ :=
  l.foldl (fun a c => 8 * a + (c.toNat - 48)) 0

/-- Numeric value of a list of binary digit characters. -/
def binDigitsVal (l : List Char) : ℕ :=
  l.foldl (fun a c => 2 * a + (c.toNat - 48)) 0

/-- Parse the optional exponent part of a decimal literal: empty gives
exponent zero; otherwise the letter e, an optional sign, and at least one
digit, consuming the whole remainder. -/
def parseExponentPart : List Char → Option ℤ
  | [] => some 0
  | c :: rest =>
    if c = Char.ofNat 101 || c = Char.ofNat 69 then
      match rest with
      | '+' :: ds =>
          if !ds.isEmpty && ds.all Char.isDigit then some (decDigitsVal ds) else none
      | '-' :: ds =>
          if !ds.isEmpty && ds.all Char.isDigit then some (-(decDigitsVal ds : ℤ)) else none
      | ds =>
          if !ds.isEmpty && ds.all Char.isDigit then some (decDigitsVal ds) else none
    else none

/-- Parse an unsigned decimal literal: digits, optionally a dot and more
digits (at least one digit overall), optionally an exponent; the whole
remainder must be consumed. -/
def parseUnsignedDec (l : List Char) : Option ℚ :=
  let ip := l.takeWhile Char.isDigit
  let rest := l.dropWhile Char.isDigit
  match rest with
  | '.' :: rest2 =>
    let fp := rest2.takeWhile Char.isDigit
    let rest3 := rest2.dropWhile Char.isDigit
    if ip.isEmpty && fp.isEmpty then none
    else
      match parseExponentPart rest3 with
      | some e =>
          some (((decDigitsVal ip : ℚ) + (decDigitsVal fp : ℚ) / (10 : ℚ) ^ fp.length)
            * (10 : ℚ) ^ e)
      | none => none
  | _ =>
    if ip.isEmpty then none
    else
      match parseExponentPart rest with
      | some e => some ((decDigitsVal ip : ℚ) * (10 : ℚ) ^ e)
      | none => none

/-- The result of JavaScript string-to-number coercion: not-a-number,
an infinity, or a finite value. -/
inductive JsNumber where
  | nan
  | posInfinity
  | negInfinity
  | val (q : ℚ)
deriving DecidableEq

/-- Parse an optionally signed decimal body: the word Infinity, or an
unsigned decimal literal; anything else is not a number. -/
def parseSignedDec (l : List Char) (sign : ℚ) (pos : Bool) : JsNumber :=
  if l = "Infinity".toList then
    (if pos then JsNumber.posInfinity else JsNumber.negInfinity)
  else
    match parseUnsignedDec l with
    | some q => JsNumber.val (sign * q)
    | none => JsNumber.nan

/-- JavaScript string-to-number coercion (the unary plus operator applied
to a string): trim whitespace; empty means zero; an optional sign followed
by a decimal literal or Infinity; or an unsigned hexadecimal, octal or
binary literal. -/
def jsStringToNumber (l : List Char) : JsNumber :=
  let t := trimJsWs l
  match t with
  | [] => JsNumber.val 0
  | '+' :: rest => parseSignedDec rest 1 true
  | '-' :: rest => parseSignedDec rest (-1) false
  | '0' :: c :: rest =>
    if c = Char.ofNat 120 || c = Char.ofNat 88 then
      (if !rest.isEmpty && rest.all isHexDigitChar then JsNumber.val (hexDigitsVal rest)
       else JsNumber.nan)
    else if c = Char.ofNat 111 || c = Char.ofNat 79 then
      (if !rest.isEmpty && rest.all (fun d => 48 ≤ d.toNat && d.toNat ≤ 55) then
        JsNumber.val (octDigitsVal rest)
       else JsNumber.nan)
    else if c = Char.ofNat 98 || c = Char.ofNat 66 then
      (if !rest.isEmpty && rest.all (fun d => 48 ≤ d.toNat && d.toNat ≤ 49) then
        JsNumber.val (binDigitsVal rest)
       else JsNumber.nan)
    else parseSignedDec t 1 true
  | _ => parseSignedDec t 1 true

/-- The record returned by extractTranslation. -/
structure Translation where
  x : JsNumber
  y : JsNumber
deriving DecidableEq

instance {ε α : Type} [DecidableEq ε] [DecidableEq α] : DecidableEq (Except ε α) :=
  fun x y =>
  match x, y with
  | Except.ok a, Except.ok b =>
      if h : a = b then isTrue (congrArg Except.ok h)
      else isFalse (fun hh => h (Except.ok.inj hh))
  | Except.error a, Except.error b =>
      if h : a = b then isTrue (congrArg Except.error h)
      else isFalse (fun hh => h (Except.error.inj hh))
  | Except.ok _, Except.error _ => isFalse (fun hh => Except.noConfusion hh)
  | Except.error _, Except.ok _ => isFalse (fun hh => Except.noConfusion hh)

/-- Split a character list at its last comma: the part before and the part
after the last comma, or none when there is no comma. -/
def splitAtLastComma : List Char → Option (List Char × List Char)
  | [] => none
  | c :: rest =>
    match splitAtLastComma rest with
    | some (a, b) => some (c :: a, b)
    | none => if c = ',' then some ([], rest) else none

/-- The literal head of the translate pattern. -/
def translateHead : List Char := "translate(".toList

/-- The apostrophe character used to quote the transform in the error
message. -/
def apostropheChar : Char := Char.ofNat 39

/-- The error message thrown for an unparsable transform, quoting the
transform itself between apostrophes. -/
def transformErrorMessage (l : List Char) : List Char :=
  "Don".toList ++ [apostropheChar] ++ "t know how to parse transform: ".toList
    ++ [apostropheChar] ++ l ++ [apostropheChar]

/-- Execute the anchored translate regular expression: the literal head,
then two dot-star groups split at the last comma, then a closing
parenthesis at the very end.  Returns the two matched groups. -/
def matchTranslate (l : List Char) : Option (List Char × List Char) :=
  if translateHead.isPrefixOf l then
    if (l.drop translateHead.length).getLast? = some ')' then
      match splitAtLastComma (l.drop translateHead.length).dropLast with
      | some (a, b) =>
          if a.all (fun c => !jsLineTerminator c) && b.all (fun c => !jsLineTerminator c) then
            some (a, b)
          else none
      | none => none
    else none
  else none

/-- Embedding of extractTranslation: on a match, the record of the two
numerically coerced groups; otherwise the descriptive error. -/
def extractTranslation (l : List Char) : Except (List Char) Translation :=
  match matchTranslate l with
  | some (a, b) => Except.ok { x := jsStringToNumber a, y := jsStringToNumber b }
  | none => Except.error (transformErrorMessage l)

/-- No character of the list is a line terminator (what a dot-star group
of a JavaScript regular expression may match). -/
def NoLineTerminator (l : List Char) : Prop :=
  ∀ c ∈ l, jsLineTerminator c = false

/-- Declarative reading of a successful match of the anchored pattern:
the string decomposes into the literal head, a first group, a comma, a
second group and a final closing parenthesis, where both groups are free of
line terminators and the second group holds no comma (the first dot-star is
greedy, so the split is at the last comma). -/
def TranslateGroups (l a b : List Char) : Prop :=
  l = translateHead ++ a ++ ',' :: (b ++ [')']) ∧
  NoLineTerminator a ∧ NoLineTerminator b ∧ ',' ∉ b

/-! ## Drawing instructions

The charts never touch pixels: they emit declarative drawing instructions
(shapes, attributes, text) which the external rendering collaborator
rasterises.  An instruction is an element name with a list of attributes
and optional text content.  Numeric attribute payloads are kept structural
(numbers, number lists, point lists) rather than re-encoding the string
concatenation the scripts perform, which loses no information. -/

/-- An attribute payload: a string, a number, a list of numbers, a list of
strings, or a list of points. -/
inductive AttrValue where
  | str (s : String)
  | num (q : ℚ)
  | nums (qs : List ℚ)
  | strs (ss : List String)
  | points (ps : List (ℚ × ℚ))
deriving DecidableEq

/-- A single emitted drawing instruction. -/
structure DrawOp where
  element : String
  attrs : List (String × AttrValue)
  textContent : Option String
deriving DecidableEq

/-- Embedding of chartUtils.setupSvgAndPaddingGroup: set the svg size (as
pixel strings) and open a group translated by the padding. -/
def setupSvgAndPaddingGroup (plot : PlotArea) : List DrawOp :=
  [ { element := "svg", attrs :=
        [("width", AttrValue.str (toString plot.svg.width ++ "px")),
         ("height", AttrValue.str (toString plot.svg.height ++ "px"))],
      textContent := none },
    { element := "g", attrs :=
        [("transform", AttrValue.points [(plot.padding.left, plot.padding.top)])],
      textContent := none } ]

/-! ## Grouped bar chart (fruit scores) -/

/-- One fruit record of the bar chart's in-memory dataset. -/
structure FruitDatum where
  name : String
  scoreToday : ℚ
  scoreLastYear : ℚ
deriving DecidableEq

/-- getData of the bar chart: the in-source literal dataset. -/
def getDataBar : List FruitDatum :=
  [ { name := "Apple", scoreToday := 62, scoreLastYear := 25 },
    { name := "Banana", scoreToday := 90, scoreLastYear := 71 },
    { name := "Peach", scoreToday := 43, scoreLastYear := 59 },
    { name := "Orange", scoreToday := 65, scoreLastYear := 43 },
    { name := "Lime", scoreToday := 88, scoreLastYear := 63 } ]

/-- Modelled from the spec: the D3 band scale, external library code not
present in src/.  The domain is an ordered list of keys and the range is
divided into one equal bucket per key. -/
structure BandScale where
  domain : List String
  r0 : ℚ
  r1 : ℚ
deriving DecidableEq

/-- Modelled from the spec: the width of one bucket of a band scale. -/
def BandScale.bandwidth (s : BandScale) : ℚ :=
  (s.r1 - s.r0) / (s.domain.length : ℚ)

/-- Modelled from the spec: the pixel position of a key, the start of its
bucket. -/
def BandScale.pos (s : BandScale) (key : String) : ℚ :=
  s.r0 + ((s.domain.indexOf key : ℕ) : ℚ) * s.bandwidth

/-- The scale pair of the bar chart: a band scale on fruit names and a
linear score scale. -/
structure BarScales where
  x : BandScale
  y : ℚ → ℚ

/-- makeScales of the bar chart. -/
def makeScalesBar (data : List FruitDatum) (plot : PlotArea) : BarScales :=
  { x := { domain := data.map (fun d => d.name), r0 := 0, r1 := plot.range.x },
    y := fun v => d3ScaleLinear 0 100 plot.range.y 0 v }

/-- Embedding of defineDashedLine: the defs pattern and its two
rectangles. -/
def defineDashedLine : List DrawOp :=
  [ { element := "pattern", attrs :=
        [("id", AttrValue.str "dashed-line"),
         ("patternUnits", AttrValue.str "userSpaceOnUse"),
         ("width", AttrValue.num 4), ("height", AttrValue.num 4)],
      textContent := none },
    { element := "rect", attrs :=
        [("width", AttrValue.num 4), ("height", AttrValue.num 4),
         ("fill", AttrValue.str "white")],
      textContent := none },
    { element := "rect", attrs :=
        [("width", AttrValue.num 2), ("height", AttrValue.num 4),
         ("fill", AttrValue.str "lightgrey")],
      textContent := none } ]

/-- An axis call handed to the external axis collaborator, recorded with
the inputs that determine its rendering: orientation, the scale, and any
tick configuration. -/
def axisOp (orient : String) (extraAttrs : List (String × AttrValue)) : DrawOp :=
  { element := "axis", attrs := ("orient", AttrValue.str orient) :: extraAttrs,
    textContent := none }

/-- Embedding of appendYAxisDashedLines of the bar chart: a left axis over
the y scale with tick size the full plot width, in a translated group. -/
def appendYAxisDashedLinesBar (plot : PlotArea) : List DrawOp :=
  [ { element := "g", attrs :=
        [("class", AttrValue.str "yDashed"),
         ("transform", AttrValue.points [(plot.range.x, 0)])],
      textContent := none },
    axisOp "axisLeft"
      [("scaleDomain", AttrValue.nums [0, 100]),
       ("scaleRange", AttrValue.nums [plot.range.y, 0]),
       ("tickSize", AttrValue.num plot.range.x)] ]

/-- Embedding of appendXAxis of the bar chart: a bottom axis over the band
scale. -/
def appendXAxisBar (scales : BarScales) (plot : PlotArea) : List DrawOp :=
  [ { element := "g", attrs :=
        [("transform", AttrValue.points [(0, plot.range.y)]),
         ("class", AttrValue.str "xAxis")],
      textContent := none },
    axisOp "axisBottom"
      [("scaleDomain", AttrValue.strs scales.x.domain),
       ("scaleRange", AttrValue.nums [scales.x.r0, scales.x.r1])] ]

/-- Embedding of appendYAxis of the bar chart: a left axis over the y
scale. -/
def appendYAxisBar (plot : PlotArea) : List DrawOp :=
  [ { element := "g", attrs := [("class", AttrValue.str "yAxis")],
      textContent := none },
    axisOp "axisLeft"
      [("scaleDomain", AttrValue.nums [0, 100]),
       ("scaleRange", AttrValue.nums [plot.range.y, 0])] ]

/-- Embedding of appendBars: a translated group and one rectangle per
fruit, positioned by the band scale and sized by the score. -/
def appendBars (data : List FruitDatum) (scales : BarScales) (plot : PlotArea) :
    List DrawOp :=
  let rectWidth := scales.x.bandwidth * (2 / 10)
  { element := "g", attrs :=
      [("class", AttrValue.str "bars"),
       ("transform", AttrValue.points [(scales.x.bandwidth / 2 - rectWidth / 2, 0)])],
    textContent := none } ::
  data.map (fun d =>
    { element := "rect", attrs :=
        [("x", AttrValue.num (scales.x.pos d.name)),
         ("y", AttrValue.num (scales.y d.scoreToday)),
         ("width", AttrValue.num rectWidth),
         ("height", AttrValue.num (plot.range.y - scales.y d.scoreToday)),
         ("class", AttrValue.str d.name)],
      textContent := none })

/-- Embedding of appendScoreToday: a translated group and one text per
fruit showing the score above its bar. -/
def appendScoreToday (data : List FruitDatum) (scales : BarScales) : List DrawOp :=
  { element := "g", attrs :=
      [("class", AttrValue.str "scoreToday"),
       ("transform", AttrValue.points [(scales.x.bandwidth / 2, 0)])],
    textContent := none } ::
  data.map (fun d =>
    { element := "text", attrs :=
        [("x", AttrValue.num (scales.x.pos d.name)),
         ("y", AttrValue.num (scales.y d.scoreToday - 5))],
      textContent := some (toString d.scoreToday) })

/-- Embedding of appendScoreLastYear: a translated group and, per fruit, a
tick line and a text with last year's score. -/
def appendScoreLastYear (data : List FruitDatum) (scales : BarScales) : List DrawOp :=
  let rectWidth := scales.x.bandwidth * (2 / 10)
  { element := "g", attrs :=
      [("class", AttrValue.str "scoreLastYear"),
       ("transform", AttrValue.points [(scales.x.bandwidth / 2 + rectWidth / 2, 0)])],
    textContent := none } ::
  (data.map (fun d =>
    { element := "line", attrs :=
        [("x1", AttrValue.num (scales.x.pos d.name)),
         ("y1", AttrValue.num (scales.y d.scoreLastYear)),
         ("x2", AttrValue.num (scales.x.pos d.name + 6)),
         ("y2", AttrValue.num (scales.y d.scoreLastYear))],
      textContent := none }) ++
   data.map (fun d =>
    { element := "text", attrs :=
        [("x", AttrValue.num (scales.x.pos d.name + 8)),
         ("y", AttrValue.num (scales.y d.scoreLastYear + 4))],
      textContent := some (toString d.scoreLastYear) }))

/-- Embedding of the bar chart's appendChartTitle. -/
def appendChartTitleBar (plot : PlotArea) : List DrawOp :=
  [ { element := "text", attrs :=
        [("id", AttrValue.str "chartTitle"),
         ("x", AttrValue.num (plot.svg.width / 2)),
         ("y", AttrValue.num (plot.padding.top * (66 / 100)))],
      textContent := some "Carbo-Hydroxyl-Frutinoid Concentrations" } ]

/-- Embedding of appendYAxisTitle of the bar chart. -/
def appendYAxisTitle (plot : PlotArea) : List DrawOp :=
  [ { element := "text", attrs :=
        [("id", AttrValue.str "yTitle"),
         ("transform", AttrValue.points
            [(plot.padding.left / 3, plot.padding.top + plot.range.y / 2)]),
         ("rotate", AttrValue.num (-90))],
      textContent := some "Concentration %" } ]

/-- Embedding of appendFootnote of the bar chart. -/
def appendFootnote (plot : PlotArea) : List DrawOp :=
  [ { element := "text", attrs :=
        [("id", AttrValue.str "footnote"),
         ("x", AttrValue.num (plot.svg.width / 2)),
         ("y", AttrValue.num (plot.svg.height - plot.padding.bottom / 4))],
      textContent :=
        some ("Bold score represents today" ++ String.singleton apostropheChar ++
          "s value.  Italic score represents last year" ++ String.singleton apostropheChar ++
          "s value.") } ]

/-- Embedding of the bar chart's top-level draw: the emitted instruction
sequence in source order. -/
def drawBarChart : List DrawOp :=
  let data := getDataBar
  let plot := getPlotAreaBar
  let scales := makeScalesBar data plot
  setupSvgAndPaddingGroup plot ++
  defineDashedLine ++
  appendYAxisDashedLinesBar plot ++
  appendXAxisBar scales plot ++
  appendYAxisBar plot ++
  appendBars data scales plot ++
  appendScoreToday data scales ++
  appendScoreLastYear data scales ++
  appendChartTitleBar plot ++
  appendYAxisTitle plot ++
  appendFootnote plot

/-! ## Rate chart pipeline

The rate chart's draw sequence, as a pure function of the parsed dataset
and of the responses of its two external collaborators: the synchronous
text-measurement helper, and the axis renderer whose emitted tick groups
the grid-line helpers read back (their translate pairs are passed in
directly).  Dates are idealised as millisecond timestamps in Q. -/

/-- Visual headroom beyond the data extent, in the rate domain. -/
def rateHeadroom : ℚ := 5 / 1000

/-- Headroom before the first date, in days. -/
def dateMinHeadroomDays : ℚ := 14

/-- Headroom after the last date, in days. -/
def dateMaxHeadroomDays : ℚ := 7

/-- Milliseconds per day, the unit in which the moment library shifts a
timestamp by days (external library, idealised without calendar
irregularities). -/
def msPerDay : ℚ := 86400000

/-- Modelled from the spec: d3.min over a list of numbers, external
library code; on the empty list the chart would propagate an undefined
value, idealised here as zero. -/
def d3MinQ : List ℚ → ℚ
  | [] => 0
  | x :: xs => xs.foldl min x

/-- Modelled from the spec: d3.max over a list of numbers, external
library code. -/
def d3MaxQ : List ℚ → ℚ
  | [] => 0
  | x :: xs => xs.foldl max x

/-- The scale pair of the rate chart, together with the domain bounds the
tick-value computation reads back from the y scale. -/
structure RateScales where
  xDomainMin : ℚ
  xDomainMax : ℚ
  yDomainMin : ℚ
  yDomainMax : ℚ
  x : ℚ → ℚ
  y : ℚ → ℚ

/-- makeScales of the rate chart: date domain widened by the day headrooms,
rate domain snapped outward to whole percents and widened by the rate
headroom. -/
def makeScalesRate (data : List RateDatum) (plot : PlotArea) : RateScales :=
  let minDate := ((data.head?.map (fun d => d.date)).getD 0) - dateMinHeadroomDays * msPerDay
  let maxDate := ((data.getLast?.map (fun d => d.date)).getD 0) + dateMaxHeadroomDays * msPerDay
  let minRate := ((⌊100 * d3MinQ (data.map (fun x => x.rate))⌋ : ℚ) / 100) - rateHeadroom
  let maxRate := ((⌈100 * d3MaxQ (data.map (fun x => x.rate))⌉ : ℚ) / 100) + rateHeadroom
  { xDomainMin := minDate, xDomainMax := maxDate,
    yDomainMin := minRate, yDomainMax := maxRate,
    x := fun v => d3ScaleLinear minDate maxDate 0 plot.range.x v,
    y := fun v => d3ScaleLinear minRate maxRate plot.range.y 0 v }

/-- Embedding of the rate chart's appendXAxis. -/
def appendXAxisRate (scales : RateScales) (plot : PlotArea) : List DrawOp :=
  [ { element := "g", attrs :=
        [("transform", AttrValue.points [(0, plot.range.y)]),
         ("class", AttrValue.str "xAxis")],
      textContent := none },
    axisOp "axisBottom"
      [("scaleDomain", AttrValue.nums [scales.xDomainMin, scales.xDomainMax]),
       ("scaleRange", AttrValue.nums [0, plot.range.x])] ]

/-- The tick values the rate chart computes for its y axis: seven evenly
spaced values spanning the domain minus the headroom at both ends. -/
def rateYTickValues (scales : RateScales) : List ℚ :=
  let numTicks : ℕ := 7
  let tickStep := (scales.yDomainMax - scales.yDomainMin - 2 * rateHeadroom)
    / ((numTicks : ℚ) - 1)
  let firstValue := scales.yDomainMin + rateHeadroom
  (List.range numTicks).map (fun i => tickStep * (i : ℚ) + firstValue)

/-- Embedding of the rate chart's appendYAxis, with its explicit tick
values and percent format. -/
def appendYAxisRate (scales : RateScales) (plot : PlotArea) : List DrawOp :=
  [ { element := "g", attrs :=
        [("transform", AttrValue.points [(plot.range.x, 0)]),
         ("class", AttrValue.str "yAxis")],
      textContent := none },
    axisOp "axisRight"
      [("scaleDomain", AttrValue.nums [scales.yDomainMin, scales.yDomainMax]),
       ("scaleRange", AttrValue.nums [plot.range.y, 0]),
       ("tickValues", AttrValue.nums (rateYTickValues scales)),
       ("tickFormat", AttrValue.str ".2%")] ]

/-- Embedding of appendBackground. -/
def appendBackground (plot : PlotArea) : List DrawOp :=
  [ { element := "rect", attrs :=
        [("width", AttrValue.num plot.range.x),
         ("height", AttrValue.num plot.range.y),
         ("class", AttrValue.str "background")],
      textContent := none } ]

/-- Embedding of appendBackgroundBorderLines: one path through the four
border points, offset half a pixel. -/
def appendBackgroundBorderLines (plot : PlotArea) : List DrawOp :=
  let offset : ℚ := 1 / 2
  [ { element := "path", attrs :=
        [("d", AttrValue.points
            [(plot.svg.width - plot.padding.left, offset),
             (offset, offset),
             (offset, plot.range.y + offset),
             (plot.svg.width - plot.padding.left, plot.range.y + offset)]),
         ("class", AttrValue.str "background-border")],
      textContent := none } ]

/-- Embedding of appendBackgroundHorizontalGridLines: the grid group, then
one horizontal line per y-axis tick, at the tick's translated y. -/
def appendBackgroundHorizontalGridLines (plot : PlotArea)
    (yTickTranslations : List (ℚ × ℚ)) : List DrawOp :=
  { element := "g", attrs := [("class", AttrValue.str "grid")],
    textContent := none } ::
  yTickTranslations.map (fun t =>
    { element := "line", attrs :=
        [("x1", AttrValue.num 0), ("y1", AttrValue.num t.2),
         ("x2", AttrValue.num plot.range.x), ("y2", AttrValue.num t.2)],
      textContent := none })

/-- Embedding of appendBackgroundVerticalGridLines: one vertical line per
x-axis tick, skipping the first tick. -/
def appendBackgroundVerticalGridLines (plot : PlotArea)
    (xTickTranslations : List (ℚ × ℚ)) : List DrawOp :=
  (xTickTranslations.drop 1).map (fun t =>
    { element := "line", attrs :=
        [("x1", AttrValue.num t.1), ("y1", AttrValue.num 0),
         ("x2", AttrValue.num t.1), ("y2", AttrValue.num plot.range.y)],
      textContent := none })

/-- Embedding of appendRecessionBars: collapse the daily flags to periods
and emit one full-height rectangle per period. -/
def appendRecessionBars (data : List RateDatum) (scales : RateScales)
    (plot : PlotArea) : List DrawOp :=
  (collapseRecessionPeriods data).map (fun d =>
    { element := "rect", attrs :=
        [("class", AttrValue.str "recession"),
         ("x", AttrValue.num (scales.x d.startDate)),
         ("y", AttrValue.num 0),
         ("width", AttrValue.num (scales.x d.endDate - scales.x d.startDate)),
         ("height", AttrValue.num plot.range.y)],
      textContent := none })

/-- Embedding of appendRateWaveform: one path through every sample point,
as the external line generator receives it. -/
def appendRateWaveform (data : List RateDatum) (scales : RateScales) : List DrawOp :=
  [ { element := "g", attrs := [("class", AttrValue.str "waveform")],
      textContent := none },
    { element := "path", attrs :=
        [("d", AttrValue.points (data.map (fun d => (scales.x d.date, scales.y d.rate))))],
      textContent := none } ]

/-- Embedding of the rate chart's appendLegend: measure the widest label
through the text-measurement collaborator, size the plate with
calcLegendArea, and emit the plate and two rows. -/
def appendLegendRate (plot : PlotArea) (measureText : String → String → ℚ) :
    List DrawOp :=
  let waveformTextString := "10 Year Treasury Rate"
  let waveformTextWidth := measureText waveformTextString ""
  let area := calcLegendArea waveformTextWidth 2
  let row : ℚ → String → String → List DrawOp := fun rowNum squareClass textString =>
    [ { element := "rect", attrs :=
          [("class", AttrValue.str squareClass),
           ("x", AttrValue.num area.square.x),
           ("y", AttrValue.num ((rowNum + 1) * area.square.margin
              + rowNum * area.square.width)),
           ("width", AttrValue.num area.square.width),
           ("height", AttrValue.num area.square.width)],
        textContent := none },
      { element := "text", attrs :=
          [("x", AttrValue.num (area.square.x - area.square.margin)),
           ("y", AttrValue.num ((rowNum + 1) * area.square.margin
              + area.textFontOffset + rowNum * area.square.width))],
        textContent := some textString } ]
  { element := "g", attrs :=
      [("class", AttrValue.str "legend"),
       ("transform", AttrValue.points
          [(plot.range.x - area.plate.width - area.plate.margin, area.plate.margin)])],
    textContent := none } ::
  { element := "rect", attrs :=
      [("class", AttrValue.str "legend-plate"),
       ("width", AttrValue.num area.plate.width),
       ("height", AttrValue.num area.plate.height)],
    textContent := none } ::
  (row 0 "legend-waveform" waveformTextString ++ row 1 "legend-recession" "Recession")

/-- Embedding of the rate chart's top-level draw: the emitted instruction
sequence in source order, as a function of the dataset and of the
collaborator responses (text measurement; the tick translate pairs read
back from the rendered axes). -/
def drawRateChart (data : List RateDatum) (measureText : String → String → ℚ)
    (xTickTranslations yTickTranslations : List (ℚ × ℚ)) : List DrawOp :=
  let plot := getPlotAreaRate
  let scales := makeScalesRate data plot
  setupSvgAndPaddingGroup plot ++
  appendBackground plot ++
  appendXAxisRate scales plot ++
  appendYAxisRate scales plot ++
  appendBackgroundHorizontalGridLines plot yTickTranslations ++
  appendBackgroundVerticalGridLines plot xTickTranslations ++
  appendRecessionBars data scales plot ++
  appendBackgroundBorderLines plot ++
  appendRateWaveform data scales ++
  appendLegendRate plot measureText

/-! ## Map chart pipeline -/

/-- Embedding of appendMap: rescale the fetched base-map image (whose
original width and height are collaborator responses) to the plot range
with non-uniform scaling. -/
def appendMap (plot : PlotArea) (origWidth origHeight : ℚ) : List DrawOp :=
  [ { element := "svg-image", attrs :=
        [("width", AttrValue.num plot.range.x),
         ("height", AttrValue.num plot.range.y),
         ("viewBox", AttrValue.nums [0, 0, origWidth, origHeight]),
         ("preserveAspectRatio", AttrValue.str "none")],
      textContent := none } ]

/-- The arc instruction emitted for one route path. -/
def arcOp (a : ArcPath) : DrawOp :=
  { element := "path", attrs :=
      [("d-move", AttrValue.points [(a.curX, a.curY)]),
       ("d-arc", AttrValue.nums
          [a.rx, a.ry, a.xAxisRotation, a.largeArcFlag, a.sweepFlag, a.newX, a.newY]),
       ("class", AttrValue.str a.cssClass)],
    textContent := none }

/-- Embedding of appendRouteArcs as emitted instructions: the routes group
followed by one path per ordered pair of distinct airports. -/
def appendRouteArcsOps (data : List Airport) (scales : MapScales) : List DrawOp :=
  { element := "g", attrs := [("class", AttrValue.str "routes")],
    textContent := none } ::
  (appendRouteArcs scales.x scales.y data).map arcOp

/-- Embedding of appendOneAirportCircle: the airport group, the circle,
the code plate sized from the measured text width, and the code text. -/
def appendOneAirportCircle (airport : Airport) (scales : MapScales)
    (measureText : String → String → ℚ) : List DrawOp :=
  let fontOffset : ℚ := 16
  let plateMargin : ℚ := 3
  let platePadding : ℚ := 1
  let cx := scales.x airport.longitude
  let cy := scales.y airport.latitude
  let r := scales.r airport.movements2015
  let textWidth := measureText airport.code "airport-hidden"
  [ { element := "g", attrs :=
        [("class", AttrValue.str "airport"),
         ("transform", AttrValue.points [(cx, cy)])],
      textContent := none },
    { element := "circle", attrs := [("r", AttrValue.num r)], textContent := none },
    { element := "rect", attrs :=
        [("class", AttrValue.str "plate"),
         ("x", AttrValue.num (-(textWidth / 2 + platePadding))),
         ("y", AttrValue.num (r + plateMargin)),
         ("width", AttrValue.num (textWidth + 2 * platePadding)),
         ("height", AttrValue.num (fontOffset + platePadding))],
      textContent := none },
    { element := "text", attrs := [("y", AttrValue.num (r + fontOffset))],
      textContent := some airport.code } ]

/-- Embedding of appendAirportCircles over the dataset. -/
def appendAirportCircles (data : List Airport) (scales : MapScales)
    (measureText : String → String → ℚ) : List DrawOp :=
  data.flatMap (fun d => appendOneAirportCircle d scales measureText)

/-- Embedding of the map chart's appendChartTitle. -/
def appendChartTitleMap (plot : PlotArea) : List DrawOp :=
  [ { element := "text", attrs :=
        [("class", AttrValue.str "chartTitle"),
         ("x", AttrValue.num (plot.svg.width / 2)),
         ("y", AttrValue.num (plot.padding.top * (66 / 100)))],
      textContent := some "Air routes among airports with highest plane movements (2015)" } ]

/-- Embedding of the map chart's appendLegend: three fixed rows. -/
def appendLegendMap (plot : PlotArea) : List DrawOp :=
  let rowSpacing : ℚ := 18
  let squareWidth : ℚ := 10
  let circleRadius : ℚ := 5
  let textOffsetX : ℚ := 10
  let textOffsetY : ℚ := 4
  let rectRow : ℚ → String → String → List DrawOp := fun rowNum shapeClass textString =>
    [ { element := "rect", attrs :=
          [("class", AttrValue.str shapeClass),
           ("x", AttrValue.num (-squareWidth / 2)),
           ("y", AttrValue.num (-squareWidth / 2 + rowNum * rowSpacing)),
           ("width", AttrValue.num squareWidth),
           ("height", AttrValue.num squareWidth)],
        textContent := none },
      { element := "text", attrs :=
          [("x", AttrValue.num textOffsetX),
           ("y", AttrValue.num (textOffsetY + rowNum * rowSpacing))],
        textContent := some textString } ]
  let circleRow : ℚ → String → String → List DrawOp := fun rowNum shapeClass textString =>
    [ { element := "circle", attrs :=
          [("class", AttrValue.str shapeClass),
           ("cy", AttrValue.num (rowNum * rowSpacing)),
           ("r", AttrValue.num circleRadius)],
        textContent := none },
      { element := "text", attrs :=
          [("x", AttrValue.num textOffsetX),
           ("y", AttrValue.num (textOffsetY + rowNum * rowSpacing))],
        textContent := some textString } ]
  { element := "g", attrs :=
      [("class", AttrValue.str "legend"),
       ("transform", AttrValue.points [(20, (8 / 10) * plot.svg.height)])],
    textContent := none } ::
  (rectRow 0 "eastward" "Eastward route" ++
   rectRow 1 "westward" "Westward route" ++
   circleRow 2 "" "Airport (radius proportional to number of movements)")

/-- Embedding of the map chart's top-level draw, as a function of the
dataset and of the collaborator responses (the base-map image size and the
text-measurement helper). -/
def drawMapChart (data : List Airport) (measureText : String → String → ℚ)
    (origWidth origHeight : ℚ) : List DrawOp :=
  let plot := getPlotAreaMap
  let scales := makeScalesMap plot
  setupSvgAndPaddingGroup plot ++
  appendMap plot origWidth origHeight ++
  appendRouteArcsOps data scales ++
  appendAirportCircles data scales measureText ++
  appendChartTitleMap plot ++
  appendLegendMap plot

example : extractTranslation ("translate(30,40)".toList)
    = Except.ok { x := JsNumber.val 30, y := JsNumber.val 40 } := by
  have hm : matchTranslate ("translate(30,40)".toList) = some (['3','0'], ['4','0']) := by
    decide
  have ht3 : trimJsWs ['3','0'] = ['3','0'] := by decide
  have ht4 : trimJsWs ['4','0'] = ['4','0'] := by decide
  have h30 : decDigitsVal ['3','0'] = 30 := by decide
  have h40 : decDigitsVal ['4','0'] = 40 := by decide
  unfold extractTranslation
  rw [hm]
  simp [jsStringToNumber, ht3, ht4, parseSignedDec, parseUnsignedDec, parseExponentPart,
    h30, h40]

/-! # Theorems -/

/-! ## Interval collapser (C1, C2) -/

/-- Helper: when every record in the remaining segment is flagged, the
fold of collapseStep never emits a period, whatever the open state is,
because the close condition needs either an unflagged record or the
string-against-number strict equality, which is always false. -/
theorem collapseStep_foldl_allTrue (n : ℕ) (l : List (ℕ × RateDatum)) :
    ∀ (acc : List RecessionPeriod) (st : Option ℚ),
      (∀ p ∈ l, p.2.isRecession = true) →
      ((l.foldl (fun s p => collapseStep n s p) (acc, st)).1 = acc) := by
  induction l with
  | nil => intro acc st _; rfl
  | cons p ps ih =>
    intro acc st h
    have hp : p.2.isRecession = true := h p (List.mem_cons_self _ _)
    have hps : ∀ q ∈ ps, q.2.isRecession = true :=
      fun q hq => h q (List.mem_cons_of_mem _ hq)
    cases st with
    | none =>
      have hstep : collapseStep n (acc, none) p = (acc, some p.2.date) := by
        simp [collapseStep, hp]
      rw [List.foldl_cons, hstep]
      exact ih acc (some p.2.date) hps
    | some s =>
      have hstep : collapseStep n (acc, some s) p = (acc, some s) := by
        simp [collapseStep, hp, jsStrictEq]
      rw [List.foldl_cons, hstep]
      exact ih acc (some s) hps

/-- C1: contrary to the claim, for every non-empty all-flagged input the
code emits NO interval at all: the end-of-data close compares the for-in
string index against the numeric length with strict equality, which never
holds, so the open run is silently dropped.  The claim (one interval from
record 0's date to record n-1's date) describes the evident intent of the
dead branch, making this a code bug; this theorem evaluates the code's
actual behaviour on all-flagged inputs. -/
theorem collapseRecessionPeriods_allTrue_empty (data : List RateDatum)
    (h : ∀ d ∈ data, d.isRecession = true) :
    collapseRecessionPeriods data = [] := by
  unfold collapseRecessionPeriods
  apply collapseStep_foldl_allTrue
  intro p hp
  exact h p.2 (List.of_mem_zip hp).2

/-- Witness for collapseRecessionPeriods_allTrue_empty: a concrete
two-record all-flagged input with dates 1 and 2 yields the empty output,
where the claim expects the single interval from 1 to 2. -/
theorem collapseRecessionPeriods_allTrue_empty_witness :
    collapseRecessionPeriods [⟨1, 0, true⟩, ⟨2, 0, true⟩] = [] :=
  collapseRecessionPeriods_allTrue_empty
    [⟨1, 0, true⟩, ⟨2, 0, true⟩] (by decide)

/-- C2 counterexample: on five strictly increasing daily dates 1..5 with
flags false, true, true, false, true, the output is NOT the claimed pair
of intervals from 2 to 3 and from 5 to 5. -/
theorem collapseRecessionPeriods_FTTFT_ne_claim :
    collapseRecessionPeriods
        [⟨1, 0, false⟩, ⟨2, 0, true⟩, ⟨3, 0, true⟩, ⟨4, 0, false⟩, ⟨5, 0, true⟩]
      ≠ [{ startDate := 2, endDate := 3 }, { startDate := 5, endDate := 5 }] := by
  decide

/-- C2 amended: for the flag pattern false, true, true, false, true over
any five dates, the output is exactly ONE interval, from the second
record's date to the FOURTH record's date: the close on a true-to-false
transition records the unflagged record's own date as the end, and the
trailing single-record run at the last index is never emitted (the
end-of-data close never fires, and a run opening at the last record is not
closed either). -/
theorem collapseRecessionPeriods_FTTFT (d1 d2 d3 d4 d5 r1 r2 r3 r4 r5 : ℚ) :
    collapseRecessionPeriods
        [⟨d1, r1, false⟩, ⟨d2, r2, true⟩, ⟨d3, r3, true⟩,
         ⟨d4, r4, false⟩, ⟨d5, r5, true⟩]
      = [{ startDate := d2, endDate := d4 }] := rfl

/-! ## Arc geometry (C3, C4) -/

/-- C3 counterexample: for a westward pair of projected points (here under
the identity projection: departure x 100, arrival x 40) the computed
radius rx is negative, and differs from the claimed absolute x-difference
times 1.5; the source multiplies the signed difference without taking an
absolute value. -/
theorem appendOneRouteArc_westward_negative_rx :
    (appendOneRouteArc (fun v => v) (fun v => v)
        { code := "AAA", longitude := 100, latitude := 50, movements2015 := 0 }
        { code := "BBB", longitude := 40, latitude := 50, movements2015 := 0 }).rx < 0 ∧
    (appendOneRouteArc (fun v => v) (fun v => v)
        { code := "AAA", longitude := 100, latitude := 50, movements2015 := 0 }
        { code := "BBB", longitude := 40, latitude := 50, movements2015 := 0 }).rx
      ≠ |(40 : ℚ) - 100| * (3 / 2) := by
  constructor
  · norm_num [appendOneRouteArc]
  · norm_num [appendOneRouteArc]

/-- C3 amended: for every pair of projected points, rx equals the SIGNED
x-difference (arrival.x - departure.x) multiplied by 1.5 — so rx is
negative exactly for westward pairs — and ry equals rx. -/
theorem appendOneRouteArc_rx_signed (sx sy : ℚ → ℚ)
    (dep arr : Airport) :
    (appendOneRouteArc sx sy dep arr).rx
        = (sx arr.longitude - sx dep.longitude) * (3 / 2) ∧
    (appendOneRouteArc sx sy dep arr).ry = (appendOneRouteArc sx sy dep arr).rx :=
  ⟨rfl, rfl⟩

/-- C4: every emitted arc has x-axis-rotation 0, large-arc-flag 0 and
sweep-flag 1, and its css class is eastward exactly when the projected
departure x is less than the projected arrival x (westward otherwise),
independent of the latitude difference. -/
theorem appendOneRouteArc_flags_and_class (sx sy : ℚ → ℚ)
    (dep arr : Airport) :
    (appendOneRouteArc sx sy dep arr).xAxisRotation = 0 ∧
    (appendOneRouteArc sx sy dep arr).largeArcFlag = 0 ∧
    (appendOneRouteArc sx sy dep arr).sweepFlag = 1 ∧
    ((appendOneRouteArc sx sy dep arr).cssClass = "eastward"
        ↔ sx dep.longitude < sx arr.longitude) ∧
    ((appendOneRouteArc sx sy dep arr).cssClass = "westward"
        ↔ ¬ sx dep.longitude < sx arr.longitude) := by
  refine ⟨rfl, rfl, rfl, ?_, ?_⟩ <;>
    by_cases h : sx dep.longitude < sx arr.longitude <;>
      simp [appendOneRouteArc, h]

/-! ## Linear scale (C5) -/

/-- C5: the linear scale (modelled from the spec, the scale itself being
external library code) satisfies the claimed formula, supports the
inverted range, and on domain 0..100 with range 200..0 maps 0 to 200, 100
to 0 and 50 to 100, decreasing strictly monotonically. -/
theorem d3ScaleLinear_inverted_range :
    (∀ v : ℚ, d3ScaleLinear 0 100 200 0 v
        = 200 + (v - 0) / (100 - 0) * (0 - 200)) ∧
    d3ScaleLinear 0 100 200 0 0 = 200 ∧
    d3ScaleLinear 0 100 200 0 100 = 0 ∧
    d3ScaleLinear 0 100 200 0 50 = 100 ∧
    (∀ a b : ℚ, a < b →
      d3ScaleLinear 0 100 200 0 b < d3ScaleLinear 0 100 200 0 a) := by
  have h : ∀ v : ℚ, d3ScaleLinear 0 100 200 0 v = 200 - 2 * v := by
    intro v; unfold d3ScaleLinear; ring
  refine ⟨fun v => rfl, ?_, ?_, ?_, fun a b hab => ?_⟩
  · rw [h]; norm_num
  · rw [h]; norm_num
  · rw [h]; norm_num
  · rw [h, h]; linarith

/-- Witness for d3ScaleLinear_inverted_range: instantiating the
monotonicity conjunct at 30 < 60 shows the pixel for 60 lies below the
pixel for 30. -/
theorem d3ScaleLinear_inverted_range_witness :
    d3ScaleLinear 0 100 200 0 60 < d3ScaleLinear 0 100 200 0 30 :=
  d3ScaleLinear_inverted_range.2.2.2.2 30 60 (by norm_num)

/-! ## Legend layout (C6) -/

/-- C6: for every non-negative maximal text width and every row count the
plate height is exactly (rows + 1) times the square margin plus rows times
the square width, and the plate width is strictly monotone in the text
width. -/
theorem calcLegendArea_height_and_mono (w rows : ℚ) (hw : 0 ≤ w) :
    ((calcLegendArea w rows).plate.height
        = (rows + 1) * (calcLegendArea w rows).square.margin
          + rows * (calcLegendArea w rows).square.width) ∧
    (∀ w1 w2 : ℚ, w1 < w2 →
      (calcLegendArea w1 rows).plate.width < (calcLegendArea w2 rows).plate.width) := by
  constructor
  · rfl
  · intro w1 w2 h12
    show (10 : ℚ) + w1 + 2 * 5 + 10 < 10 + w2 + 2 * 5 + 10
    linarith

/-- Witness for calcLegendArea_height_and_mono: at text width 50 and two
rows the plate height identity holds, and widening the text from 30 to 40
widens the plate. -/
theorem calcLegendArea_height_and_mono_witness :
    ((calcLegendArea 50 2).plate.height
        = (2 + 1) * (calcLegendArea 50 2).square.margin
          + 2 * (calcLegendArea 50 2).square.width) ∧
    (calcLegendArea 30 2).plate.width < (calcLegendArea 40 2).plate.width :=
  ⟨(calcLegendArea_height_and_mono 50 2 (by norm_num)).1,
   (calcLegendArea_height_and_mono 50 2 (by norm_num)).2 30 40 (by norm_num)⟩

/-! ## Plot-area invariant (C8) -/

/-- C8: for each of the three charts, the computed range equals the svg
size minus the two paddings on that axis.  (In this functional embedding
the record is immutable by construction, matching the source, which never
reassigns a plot field after getPlotArea returns.) -/
theorem getPlotArea_range_invariant :
    getPlotAreaMap.range.x
        = getPlotAreaMap.svg.width - getPlotAreaMap.padding.left
          - getPlotAreaMap.padding.right ∧
    getPlotAreaMap.range.y
        = getPlotAreaMap.svg.height - getPlotAreaMap.padding.top
          - getPlotAreaMap.padding.bottom ∧
    getPlotAreaRate.range.x
        = getPlotAreaRate.svg.width - getPlotAreaRate.padding.left
          - getPlotAreaRate.padding.right ∧
    getPlotAreaRate.range.y
        = getPlotAreaRate.svg.height - getPlotAreaRate.padding.top
          - getPlotAreaRate.padding.bottom ∧
    getPlotAreaBar.range.x
        = getPlotAreaBar.svg.width - getPlotAreaBar.padding.left
          - getPlotAreaBar.padding.right ∧
    getPlotAreaBar.range.y
        = getPlotAreaBar.svg.height - getPlotAreaBar.padding.top
          - getPlotAreaBar.padding.bottom :=
  ⟨rfl, rfl, rfl, rfl, rfl, rfl⟩

/-! ## Determinism of the render pipelines (C9) -/

/-- C9: each chart's emitted instruction sequence is a pure function of
the dataset and of the responses of the external collaborators (text
measurement, base-map size, axis tick positions); two runs with the same
inputs produce the identical sequence.  The embeddings cover the full
draw pipelines, which consult no other input (no clock, no randomness, no
ambient mutable state). -/
theorem draw_deterministic :
    (∀ (data : List RateDatum) (measureText : String → String → ℚ)
        (xTicks yTicks : List (ℚ × ℚ)),
      drawRateChart data measureText xTicks yTicks
        = drawRateChart data measureText xTicks yTicks) ∧
    (∀ (data : List Airport) (measureText : String → String → ℚ) (ow oh : ℚ),
      drawMapChart data measureText ow oh = drawMapChart data measureText ow oh) ∧
    drawBarChart = drawBarChart :=
  ⟨fun _ _ _ _ => rfl, fun _ _ _ _ => rfl, rfl⟩

/-! ## Route-arc fan-out (C10) -/

/-- Helper: the length of a filterMap that keeps exactly the indices
different from i is the count of such indices. -/
theorem length_filterMap_ne {α : Type} (f : ℕ → α) (i : ℕ) (l : List ℕ) :
    (l.filterMap (fun j => if j ≠ i then some (f j) else none)).length
      = l.countP (fun j => decide (j ≠ i)) := by
  induction l with
  | nil => rfl
  | cons x xs ih =>
    by_cases h : x ≠ i
    · simp only [List.filterMap_cons, if_pos h, List.length_cons, ih, List.countP_cons]
      simp [h]
    · simp only [List.filterMap_cons, if_neg h, ih, List.countP_cons]
      simp [h]

/-- Helper: in a duplicate-free list containing i, all but one element
differ from i. -/
theorem countP_ne_of_nodup (l : List ℕ) (i : ℕ) (hnd : l.Nodup) (hm : i ∈ l) :
    l.countP (fun j => decide (j ≠ i)) = l.length - 1 := by
  have h1 := l.length_eq_countP_add_countP (fun j => decide (j ≠ i))
  have h2 : l.countP (fun a => decide ¬(decide (a ≠ i) = true)) = l.count i := by
    unfold List.count
    apply List.countP_congr
    intro a _
    simp
  have h3 := List.count_eq_one_of_mem hnd hm
  omega

/-- Helper: summing a constant over a list multiplies it by the length. -/
theorem sum_map_const_nat (l : List ℕ) (c : ℕ) :
    (l.map (fun _ => c)).sum = l.length * c := by
  induction l with
  | nil => simp
  | cons x xs ih =>
    simp only [List.map_cons, List.sum_cons, List.length_cons, ih]
    ring

/-- C10: for a dataset of n airports the route-arc pass emits exactly
n * (n - 1) arcs, one per ordered pair of DISTINCT indices; every emitted
arc joins two positions with different indices, so no arc runs from an
airport to itself. -/
theorem appendRouteArcs_count_and_no_self (sx sy : ℚ → ℚ) (data : List Airport) :
    (appendRouteArcs sx sy data).length = data.length * (data.length - 1) ∧
    (∀ a ∈ appendRouteArcs sx sy data, ∃ i j, i < data.length ∧ j < data.length ∧
        j ≠ i ∧ a = appendOneRouteArc sx sy (data.getD i default) (data.getD j default)) := by
  constructor
  · unfold appendRouteArcs
    rw [List.length_flatMap]
    have hcong : ∀ i ∈ List.range data.length,
        ((List.range data.length).filterMap (fun j =>
          if j ≠ i then
            some (appendOneRouteArc sx sy (data.getD i default) (data.getD j default))
          else none)).length
          = data.length - 1 := by
      intro i hi
      rw [length_filterMap_ne, countP_ne_of_nodup _ _ (List.nodup_range _) hi,
        List.length_range]
    simp only [Function.comp_def]
    rw [List.map_congr_left hcong, sum_map_const_nat, List.length_range]
  · intro a ha
    unfold appendRouteArcs at ha
    rw [List.mem_flatMap] at ha
    obtain ⟨i, hi, hmem⟩ := ha
    rw [List.mem_filterMap] at hmem
    obtain ⟨j, hj, heq⟩ := hmem
    by_cases hji : j ≠ i
    · rw [if_pos hji] at heq
      exact ⟨i, j, List.mem_range.mp hi, List.mem_range.mp hj, hji,
        (Option.some.inj heq).symm⟩
    · rw [if_neg hji] at heq
      cases heq

/-- A concrete airport used by the fan-out witness. -/
def airportA : Airport :=
  { code := "AAA", longitude := 10, latitude := 20, movements2015 := 0 }

/-- A second concrete airport used by the fan-out witness. -/
def airportB : Airport :=
  { code := "BBB", longitude := 30, latitude := 40, movements2015 := 0 }

/-- Witness for appendRouteArcs_count_and_no_self: two airports yield
2 * 1 arcs, and the arc from the first to the second is one of them,
joining distinct indices. -/
theorem appendRouteArcs_count_witness :
    (appendRouteArcs (fun v => v) (fun v => v) [airportA, airportB]).length
        = [airportA, airportB].length * ([airportA, airportB].length - 1) ∧
    (∃ i j, i < [airportA, airportB].length ∧ j < [airportA, airportB].length ∧
      j ≠ i ∧
      appendOneRouteArc (fun v => v) (fun v => v) airportA airportB
        = appendOneRouteArc (fun v => v) (fun v => v)
            ([airportA, airportB].getD i default) ([airportA, airportB].getD j default)) := by
  have h := appendRouteArcs_count_and_no_self (fun v => v) (fun v => v)
    [airportA, airportB]
  refine ⟨h.1, ?_⟩
  apply h.2
  rw [show appendRouteArcs (fun v => v) (fun v => v) [airportA, airportB]
      = [appendOneRouteArc (fun v => v) (fun v => v) airportA airportB,
         appendOneRouteArc (fun v => v) (fun v => v) airportB airportA] from rfl]
  exact List.mem_cons_self _ _

/-! ## Transform parsing (C7) -/

/-- Helper: when the splitter finds no comma, the list holds none. -/
theorem not_mem_of_splitAtLastComma_none {l : List Char}
    (h : splitAtLastComma l = none) : ',' ∉ l := by
  induction l with
  | nil => simp
  | cons c rest ih =>
    intro hmem
    unfold splitAtLastComma at h
    cases hrest : splitAtLastComma rest with
    | some p =>
      rw [hrest] at h
      cases h
    | none =>
      rw [hrest] at h
      by_cases hc : c = ','
      · rw [if_pos hc] at h
        cases h
      · rcases List.mem_cons.mp hmem with h1 | h1
        · exact hc h1.symm
        · exact ih hrest h1

/-- Helper: a comma-free list does not split. -/
theorem splitAtLastComma_eq_none {l : List Char} (h : ',' ∉ l) :
    splitAtLastComma l = none := by
  induction l with
  | nil => rfl
  | cons c rest ih =>
    have hc : ¬(c = ',') := fun hh => h (hh ▸ List.mem_cons_self _ _)
    have hr : ',' ∉ rest := fun hh => h (List.mem_cons_of_mem _ hh)
    unfold splitAtLastComma
    rw [ih hr, if_neg hc]

/-- Helper: a successful split decomposes the list at a comma whose suffix
holds no further comma. -/
theorem splitAtLastComma_eq_some {l a b : List Char}
    (h : splitAtLastComma l = some (a, b)) :
    l = a ++ ',' :: b ∧ ',' ∉ b := by
  induction l generalizing a b with
  | nil => cases h
  | cons c rest ih =>
    unfold splitAtLastComma at h
    cases hrest : splitAtLastComma rest with
    | some p =>
      obtain ⟨a', b'⟩ := p
      rw [hrest] at h
      simp only [Option.some.injEq, Prod.mk.injEq] at h
      obtain ⟨ha, hb⟩ := h
      obtain ⟨h1, h2⟩ := ih hrest
      subst ha hb
      exact ⟨by rw [h1]; rfl, h2⟩
    | none =>
      rw [hrest] at h
      by_cases hc : c = ','
      · rw [if_pos hc] at h
        simp only [Option.some.injEq, Prod.mk.injEq] at h
        obtain ⟨ha, hb⟩ := h
        subst ha hb
        subst hc
        exact ⟨rfl, not_mem_of_splitAtLastComma_none hrest⟩
      · rw [if_neg hc] at h
        cases h

/-- Helper: splitting a list built around the last comma recovers its two
parts. -/
theorem splitAtLastComma_append (a b : List Char) (hb : ',' ∉ b) :
    splitAtLastComma (a ++ ',' :: b) = some (a, b) := by
  induction a with
  | nil =>
    show splitAtLastComma (',' :: b) = some ([], b)
    unfold splitAtLastComma
    rw [splitAtLastComma_eq_none hb, if_pos rfl]
  | cons c cs ih =>
    show splitAtLastComma (c :: (cs ++ ',' :: b)) = some (c :: cs, b)
    unfold splitAtLastComma
    rw [ih]

/-- Helper: the executable matcher succeeds with groups (a, b) exactly
when the string decomposes per the anchored translate pattern with those
canonical (greedy) groups. -/
theorem matchTranslate_eq_some_iff (l a b : List Char) :
    matchTranslate l = some (a, b) ↔ TranslateGroups l a b := by
  constructor
  · intro h
    unfold matchTranslate at h
    split at h
    case isFalse => exact Option.noConfusion h
    case isTrue hpre =>
      split at h
      case isFalse => exact Option.noConfusion h
      case isTrue hlast =>
        cases hsplit : splitAtLastComma (l.drop translateHead.length).dropLast with
        | none =>
          rw [hsplit] at h
          exact Option.noConfusion h
        | some p =>
          obtain ⟨a', b'⟩ := p
          rw [hsplit] at h
          simp only [] at h
          split at h
          case isFalse => exact Option.noConfusion h
          case isTrue hterm =>
            simp only [Option.some.injEq, Prod.mk.injEq] at h
            obtain ⟨ha, hb⟩ := h
            subst ha
            subst hb
            obtain ⟨t, ht⟩ := List.isPrefixOf_iff_prefix.mp hpre
            have hdrop : l.drop translateHead.length = t := by
              rw [← ht, List.drop_left]
            rw [hdrop] at hlast hsplit
            have htne : t ≠ [] := by
              intro hnil
              rw [hnil] at hlast
              exact Option.noConfusion hlast
            have hg : t.getLast htne = ')' := by
              have h2 := List.getLast?_eq_getLast t htne
              rw [hlast] at h2
              exact (Option.some.inj h2).symm
            have hlt : t.dropLast ++ [')'] = t := by
              rw [← hg]
              exact List.dropLast_append_getLast htne
            obtain ⟨hmid, hnb⟩ := splitAtLastComma_eq_some hsplit
            obtain ⟨hterm1, hterm2⟩ := Bool.and_eq_true_iff.mp hterm
            refine ⟨?_, ?_, ?_, hnb⟩
            · rw [← ht, ← hlt, hmid]
              simp
            · intro c hc
              have hcc := List.all_eq_true.mp hterm1 c hc
              simpa using hcc
            · intro c hc
              have hcc := List.all_eq_true.mp hterm2 c hc
              simpa using hcc
  · intro hg
    obtain ⟨hl, hna, hnb, hcomma⟩ := hg
    subst hl
    unfold matchTranslate
    have hpre : translateHead.isPrefixOf
        (translateHead ++ a ++ ',' :: (b ++ [')'])) = true := by
      rw [ List.isPrefixOf_iff_prefix]
      exact ⟨a ++ ',' :: (b ++ [')']), rfl⟩
    rw [if_pos hpre]
    have hdrop : (translateHead ++ a ++ ',' :: (b ++ [')'])).drop translateHead.length
        = a ++ ',' :: (b ++ [')']) := List.drop_left _ _
    rw [hdrop]
    have hform : a ++ ',' :: (b ++ [')']) = (a ++ ',' :: b) ++ [')'] := by simp
    rw [hform, List.getLast?_concat, List.dropLast_concat, if_pos rfl,
      splitAtLastComma_append a b hcomma]
    have ha : a.all (fun c => !jsLineTerminator c) = true :=
      List.all_eq_true.mpr (fun c hc => by rw [hna c hc]; rfl)
    have hb : b.all (fun c => !jsLineTerminator c) = true :=
      List.all_eq_true.mpr (fun c hc => by rw [hnb c hc]; rfl)
    simp [ha, hb]

instance (l : List Char) : Decidable (NoLineTerminator l) :=
  List.decidableBAll _ l

instance (l a b : List Char) : Decidable (TranslateGroups l a b) :=
  inferInstanceAs (Decidable (_ ∧ _ ∧ _ ∧ _))

/-- C7: extractTranslation fails exactly when the transform string does
not match the anchored translate pattern; on a match it returns the two
numerically coerced groups, and otherwise its error is the descriptive
message quoting the unparsable transform. -/
theorem extractTranslation_spec (l : List Char) :
    ((extractTranslation l).isOk = true ↔ ∃ a b, TranslateGroups l a b) ∧
    (∀ a b, TranslateGroups l a b →
      extractTranslation l
        = Except.ok { x := jsStringToNumber a, y := jsStringToNumber b }) ∧
    ((∀ a b, ¬ TranslateGroups l a b) →
      extractTranslation l = Except.error (transformErrorMessage l)) := by
  cases hm : matchTranslate l with
  | none =>
    have he : extractTranslation l = Except.error (transformErrorMessage l) := by
      unfold extractTranslation
      rw [hm]
    refine ⟨?_, ?_, fun _ => he⟩
    · rw [he]
      constructor
      · intro hk
        exact Bool.noConfusion hk
      · rintro ⟨a, b, hg⟩
        have := (matchTranslate_eq_some_iff l a b).mpr hg
        rw [hm] at this
        exact Option.noConfusion this
    · intro a b hg
      have := (matchTranslate_eq_some_iff l a b).mpr hg
      rw [hm] at this
      exact Option.noConfusion this
  | some p =>
    obtain ⟨a0, b0⟩ := p
    have hg0 := (matchTranslate_eq_some_iff l a0 b0).mp hm
    have he : extractTranslation l
        = Except.ok { x := jsStringToNumber a0, y := jsStringToNumber b0 } := by
      unfold extractTranslation
      rw [hm]
    refine ⟨?_, ?_, ?_⟩
    · rw [he]
      exact iff_of_true rfl ⟨a0, b0, hg0⟩
    · intro a b hg
      have hsome := (matchTranslate_eq_some_iff l a b).mpr hg
      rw [hm] at hsome
      simp only [Option.some.injEq, Prod.mk.injEq] at hsome
      obtain ⟨ha, hb⟩ := hsome
      subst ha
      subst hb
      exact he
    · intro hnone
      exact absurd hg0 (hnone a0 b0)

/-- Witness for extractTranslation_spec: the concrete transform string
translate(30,40) matches with groups 30 and 40 and parses to their numeric
values. -/
theorem extractTranslation_spec_witness :
    extractTranslation ("translate(30,40)".toList)
      = Except.ok { x := jsStringToNumber ("30".toList),
                    y := jsStringToNumber ("40".toList) } :=
  (extractTranslation_spec ("translate(30,40)".toList)).2.1
    ("30".toList) ("40".toList) (by decide)
